import Mathlib

/-
Verification of the kcc-notify plugin (src/index.ts) and the telegram mode
watchdog shell script, via a shallow embedding in Lean.  JavaScript strings
are modelled as Lean strings (lists of characters); JS falsy-coalescing
(`a || b || ''`) is modelled explicitly; the regexes used by the two
classification predicates are implemented as character-list scanners with
the same semantics on the character classes they use.
-/

namespace KccNotify

/-! ### String helpers mirroring JS semantics -/

/-- JS whitespace class used by the regexes and by String.prototype.trim
(restricted to the ASCII members). -/
def isWS (c : Char) : Bool :=
  c == ' ' || c == '\t' || c == '\n' || c == '\r' || c == '\x0b' || c == '\x0c'

/-- The character class of the regex fragment given as a bracket expression
with colon and whitespace. -/
def isCodeSep (c : Char) : Bool :=
  c == ':' || isWS c

/-- Does the list start with the given literal? (one regex/includes position) -/
def isSubLitAt (lit l : List Char) : Bool :=
  l.take lit.length == lit

/-- Scan every start position of the list (the way an unanchored regex or
String.prototype.includes does) and test the predicate there. -/
def scanAny (p : List Char → Bool) : List Char → Bool
  | [] => p []
  | c :: rest => p (c :: rest) || scanAny p rest

/-- JS String.prototype.includes. -/
def containsLit (lit l : List Char) : Bool :=
  scanAny (fun s => isSubLitAt lit s) l

/-- JS String.prototype.trim (ASCII whitespace). -/
def jsTrim (l : List Char) : List Char :=
  ((l.dropWhile isWS).reverse.dropWhile isWS).reverse

/-- JS String.prototype.slice(0, n) for code-unit strings (ASCII-faithful). -/
def sliceTo (n : Nat) (s : String) : String :=
  String.mk (s.data.take n)

/-- JS `a || b || ''` over possibly-missing string fields: the first
present, non-empty value, defaulting to the empty string. -/
def jsOrStr (a b : Option String) : String :=
  match a with
  | some s => if s == "" then b.getD "" else s
  | none => b.getD ""

/-- JS `x || d` over a possibly-missing string field with a non-empty
default. -/
def jsOrDefault (o : Option String) (d : String) : String :=
  match o with
  | some s => if s == "" then d else s
  | none => d

/-- JS truthiness of a possibly-missing string field. -/
def jsStrTruthy : Option String → Bool
  | some s => s != ""
  | none => false

/-- JS `x ? Number(x) : undefined` for a possibly-missing numeric field
(0 is falsy). -/
def numIfTruthy : Option Int → Option Int
  | some n => if n == 0 then none else some n
  | none => none

/-- Decimal value of a digit run (what parseInt does on a digit string). -/
def parseDigits (ds : List Char) : Nat :=
  ds.foldl (fun acc c => acc * 10 + (c.toNat - 48)) 0

/-- JS String.prototype.toLowerCase, as the character list it produces
(ASCII-faithful). -/
def lowerData (s : String) : List Char :=
  s.data.map Char.toLower

/-! ### Constants from src/index.ts -/

def BOSS_SENDER_IDS : List String := ["167090545"]

def BENIGN_EXIT1_COMMANDS : List String :=
  ["cat", "grep", "ls", "egrep", "fgrep", "diff", "test"]

/-! ### isHarmlessExecFailure (src/index.ts lines 29-67) -/

/-- One position of the anchored pattern: the command word followed by a
whitespace character or the end of the string. -/
def matchWordAt (w l : List Char) : Bool :=
  isSubLitAt w l &&
    (match l.drop w.length with
     | [] => true
     | c :: _ => isWS c)

/-- One position of the separator patterns: a separator (pipe, double
ampersand or semicolon), optional whitespace, then the command word followed
by whitespace or end. -/
def matchSepWordAt (sep w l : List Char) : Bool :=
  isSubLitAt sep l && matchWordAt w ((l.drop sep.length).dropWhile isWS)

/-- The benign-command rule of isHarmlessExecFailure: some allow-listed
command appears at the start of the trimmed command or right after a pipe,
a double ampersand or a semicolon. -/
def benignCmdHit (command : String) : Bool :=
  BENIGN_EXIT1_COMMANDS.any fun cmd =>
    matchWordAt cmd.data (jsTrim command.data) ||
    scanAny (matchSepWordAt "|".data cmd.data) (jsTrim command.data) ||
    scanAny (matchSepWordAt "&&".data cmd.data) (jsTrim command.data) ||
    scanAny (matchSepWordAt ";".data cmd.data) (jsTrim command.data)

/-- One position of the zsh pattern: the literal "zsh:" then, on the same
line (a JS dot does not cross a newline), the literal "no matches". -/
def sameLineContains (lit : List Char) : List Char → Bool
  | [] => isSubLitAt lit []
  | c :: rest =>
    isSubLitAt lit (c :: rest) ||
      (if c == '\n' || c == '\r' then false else sameLineContains lit rest)

def matchZshAt (l : List Char) : Bool :=
  isSubLitAt "zsh:".data l && sameLineContains "no matches".data (l.drop 4)

/-- BENIGN_STDERR_PATTERNS.some on the stderr text (both patterns are
case-insensitive). -/
def stderrBenign (stderr : String) : Bool :=
  containsLit "no matches found".data (lowerData stderr) ||
  scanAny matchZshAt (lowerData stderr)

/-- isHarmlessExecFailure from src/index.ts: redirect marker, then the
benign-command rule at exit code exactly 1, then the stderr patterns. -/
def isHarmlessExecFailure (command : String) (exitCode : Int) (stderr : String) : Bool :=
  if containsLit "2>/dev/null".data command.data then true
  else if exitCode == 1 && benignCmdHit command then true
  else if stderr != "" && stderrBenign stderr then true
  else false

/-! ### isHarmlessExecMessage (src/index.ts lines 74-103) -/

/-- One position of a pattern consisting of a literal followed by at least
one digit. -/
def matchLitThenDigitAt (lit l : List Char) : Bool :=
  isSubLitAt lit l &&
    (match l.drop lit.length with
     | c :: _ => c.isDigit
     | [] => false)

/-- One position of the pattern: a literal, then one or more colon-or-space
characters, then at least one digit. -/
def matchSepsDigitsAt (lit l : List Char) : Bool :=
  isSubLitAt lit l &&
    (let rest := l.drop lit.length
     !(rest.takeWhile isCodeSep).isEmpty &&
       (match rest.dropWhile isCodeSep with
        | c :: _ => c.isDigit
        | [] => false))

/-- The three exec-error-message patterns (all case-insensitive). -/
def isExecErrorMsg (content : String) : Bool :=
  scanAny (matchLitThenDigitAt "command exited with code ".data) (lowerData content) ||
  scanAny (matchLitThenDigitAt "exited with code ".data) (lowerData content) ||
  scanAny (matchSepsDigitsAt "exit code".data) (lowerData content)

/-- Try the code-extraction regex at one position: the literal "code", one
or more colon-or-space characters, then a maximal digit run (the capture). -/
def matchCodeNumAt (l : List Char) : Option Nat :=
  if isSubLitAt "code".data l then
    let rest := l.drop 4
    if !(rest.takeWhile isCodeSep).isEmpty &&
        !((rest.dropWhile isCodeSep).takeWhile Char.isDigit).isEmpty then
      some (parseDigits ((rest.dropWhile isCodeSep).takeWhile Char.isDigit))
    else none
  else none

/-- Leftmost match of the code-extraction regex. -/
def findCodeNum : List Char → Option Nat
  | [] => matchCodeNumAt []
  | c :: rest =>
    match matchCodeNumAt (c :: rest) with
    | some n => some n
    | none => findCodeNum rest

/-- The exit code the message reports, defaulting to 0 when the extraction
regex does not match. -/
def extractExitCode (content : String) : Nat :=
  (findCodeNum (lowerData content)).getD 0

/-- isHarmlessExecMessage from src/index.ts. -/
def isHarmlessExecMessage (content : String) : Bool :=
  if !isExecErrorMsg content then false
  else if 1 < extractExitCode content then false
  else if BENIGN_EXIT1_COMMANDS.any
      (fun cmd => containsLit cmd.data (lowerData content)) then true
  else if containsLit "2>/dev/null".data (lowerData content) then true
  else if containsLit "no matches found".data (lowerData content) then true
  else false

/-! ### Outbound calls and event handlers (src/index.ts lines 147-279) -/

inductive Endpoint where
  | workflow
  | messages
deriving DecidableEq

/-- The JSON bodies posted to the two dashboard endpoints. -/
inductive Payload where
  | feed (message : String) (fromName : String) (ty : String)
  | flow (action : String) (content : String) (fromName : String)
      (agent : String) (messageId : Option Int)
  | complete (action : String) (agent : String) (result : String)
deriving DecidableEq

structure Call where
  endpoint : Endpoint
  payload : Payload
deriving DecidableEq

/-- The free-text field carried by a call: the feed message, the flow
content, or the completion result. -/
def Call.contentText : Call → String
  | ⟨_, Payload.feed m _ _⟩ => m
  | ⟨_, Payload.flow _ c _ _ _⟩ => c
  | ⟨_, Payload.complete _ _ r⟩ => r

/-- The fields the message_received hook reads off the host event. -/
structure RecvEvent where
  senderId : Option String
  content : Option String
  messageId : Option Int
  senderName : Option String
deriving DecidableEq

/-- The message_received hook: the list of outbound posts it issues, in
order. -/
def onMessageReceived (e : RecvEvent) : List Call :=
  (if BOSS_SENDER_IDS.contains ((e.senderId).getD "") &&
      (e.content).getD "" != "" then
    [⟨Endpoint.messages, Payload.feed ((e.content).getD "") "Boss" "received"⟩]
   else []) ++
  (if BOSS_SENDER_IDS.contains ((e.senderId).getD "") then
    [⟨Endpoint.workflow,
      Payload.flow "start_flow" (sliceTo 200 ((e.content).getD ""))
        (jsOrDefault e.senderName "Unknown") "wickedman"
        (numIfTruthy e.messageId)⟩]
   else [])

/-- The fields the message_sent hook reads off the host event. -/
structure SentEvent where
  content : Option String
  body : Option String
  recipientId : Option String
  chatId : Option String
deriving DecidableEq

/-- The message_sent hook: the list of outbound posts it issues, in order.
The body field stands for the event's alternate text field. -/
def onMessageSent (e : SentEvent) : List Call :=
  if jsOrStr e.content e.body == "" then []
  else if isHarmlessExecMessage (jsOrStr e.content e.body) then []
  else if BOSS_SENDER_IDS.contains (jsOrStr e.recipientId e.chatId) then
    [⟨Endpoint.messages,
      Payload.feed (jsOrStr e.content e.body) "WickedMan" "sent"⟩,
     ⟨Endpoint.workflow,
      Payload.complete "agent_complete" "wickedman"
        (sliceTo 200 (jsOrStr e.content e.body))⟩]
  else []

/-- The fields of the exec tool-call result object. -/
structure ToolResult where
  status : Option String
  exitCode : Option Int
  stderr : Option String
  error : Option String
deriving DecidableEq

/-- The fields the after_tool_call hook reads off the host event. -/
structure ToolEvent where
  toolName : Option String
  name : Option String
  result : Option ToolResult
  output : Option ToolResult
  paramsCommand : Option String
  inputCommand : Option String
deriving DecidableEq

def emptyToolResult : ToolResult := ⟨none, none, none, none⟩

/-- JS object coalescing of the result and output fields (any present
object is truthy). -/
def resolveResult (e : ToolEvent) : ToolResult :=
  match e.result with
  | some r => r
  | none => (e.output).getD emptyToolResult

def resultStatus (r : ToolResult) : String := (r.status).getD ""

/-- The exit-code derivation: the numeric exitCode field when present, else
1 on an error status, else 0. -/
def deriveExitCode (r : ToolResult) : Int :=
  match r.exitCode with
  | some n => n
  | none => if resultStatus r == "error" then 1 else 0

/-- The after_tool_call hook: the list of outbound posts it issues. -/
def onAfterToolCall (e : ToolEvent) : List Call :=
  if jsOrStr e.toolName e.name != "exec" then []
  else
    if deriveExitCode (resolveResult e) == 0 &&
        resultStatus (resolveResult e) != "error" then []
    else
      if isHarmlessExecFailure (jsOrStr e.paramsCommand e.inputCommand)
          (deriveExitCode (resolveResult e))
          (jsOrStr (resolveResult e).stderr (resolveResult e).error) then []
      else
        [⟨Endpoint.messages,
          Payload.feed
            ("⚠️ Exec failure (exit " ++
              toString (deriveExitCode (resolveResult e)) ++ "): " ++
              sliceTo 150 (jsOrStr e.paramsCommand e.inputCommand))
            "System" "exec_error"⟩]

/-! ### Manual notify route (src/index.ts lines 252-279) -/

/-- The parsed JSON body of a POST to the manual-notify route. -/
structure NotifyBody where
  content : Option String
  fromName : Option String
  messageId : Option Int
deriving DecidableEq

inductive RespBody where
  | contentRequired
  | success (ok : Bool)
deriving DecidableEq

structure Resp where
  status : Nat
  body : RespBody
deriving DecidableEq

/-- The manual-notify route handler: deliverOk is the boolean outcome of
the post to the workflow endpoint. -/
def manualNotifyHandler (b : NotifyBody) (deliverOk : Bool) : Resp :=
  if !jsStrTruthy b.content then ⟨400, RespBody.contentRequired⟩
  else ⟨if deliverOk then 200 else 502, RespBody.success deliverOk⟩

/-- The payload the manual-notify route posts to the workflow endpoint
(destructuring default: the from field defaults only when absent). -/
def manualNotifyCall (b : NotifyBody) : Call :=
  ⟨Endpoint.workflow,
   Payload.flow "start_flow" (sliceTo 200 ((b.content).getD ""))
     ((b.fromName).getD "Unknown") "wickedman" (numIfTruthy b.messageId)⟩

end KccNotify

namespace Watchdog

/-! ### Telegram mode watchdog (shell script) -/

inductive Mode where
  | webhook
  | polling
deriving DecidableEq

/-- The persisted JSON state record. The script reads and writes mode,
failureCount and lastSwitch; lastCheck is carried but never rewritten. -/
structure WState where
  mode : Mode
  failureCount : Nat
  lastCheck : Nat
  lastSwitch : Nat
deriving DecidableEq

/-- One health snapshot: the four probes. -/
structure Health where
  nginx : Bool
  cf : Bool
  openclaw : Bool
  kcc : Bool
deriving DecidableEq

def FAILURE_THRESHOLD : Nat := 2

/-- switch_to_polling: its effect on the persisted state (mode, switch
timestamp, counter reset). -/
def switch_to_polling (s : WState) (now : Nat) : WState :=
  { s with mode := Mode.polling, lastSwitch := now, failureCount := 0 }

/-- switch_to_webhook: its effect on the persisted state. -/
def switch_to_webhook (s : WState) (now : Nat) : WState :=
  { s with mode := Mode.webhook, lastSwitch := now, failureCount := 0 }

/-- main: the persisted state after one invocation, given the health
snapshot and the wall-clock time used for lastSwitch. -/
def watchdogMain (s : WState) (h : Health) (now : Nat) : WState :=
  match s.mode with
  | Mode.webhook =>
    if !h.nginx || !h.cf then
      if s.failureCount + 1 ≥ FAILURE_THRESHOLD then
        switch_to_polling { s with failureCount := s.failureCount + 1 } now
      else
        { s with failureCount := s.failureCount + 1 }
    else
      if s.failureCount > 0 then { s with failureCount := 0 } else s
  | Mode.polling =>
    if h.nginx && h.cf && h.openclaw then
      if s.failureCount + 1 ≥ FAILURE_THRESHOLD then
        switch_to_webhook { s with failureCount := s.failureCount + 1 } now
      else
        { s with failureCount := s.failureCount + 1 }
    else
      if s.failureCount > 0 then { s with failureCount := 0 } else s

/-! ### File operations of the watchdog (state file and channel config) -/

inductive FileOp where
  | write (path : String) (content : String)
  | rename (src : String) (dst : String)
deriving DecidableEq

def STATE_FILE : String := "/tmp/telegram-watchdog-state.json"

def OPENCLAW_CONFIG : String := "$HOME/.openclaw/openclaw.json"

/-- update_state: a single direct redirection of the new record onto the
state file. -/
def update_state (newState : String) : List FileOp :=
  [FileOp.write STATE_FILE newState]

/-- init_state: writes the default record directly when the file is
missing. -/
def init_state (stateFileExists : Bool) : List FileOp :=
  if stateFileExists then []
  else [FileOp.write STATE_FILE
    "\x7b\"mode\":\"webhook\",\"failureCount\":0,\"lastCheck\":0,\"lastSwitch\":0\x7d"]

/-- The channel-config rewrite performed inside both switch functions:
write the new config to a temp file, then rename it over the config. -/
def rewriteConfigOps (newCfg : String) : List FileOp :=
  [FileOp.write (OPENCLAW_CONFIG ++ ".tmp") newCfg,
   FileOp.rename (OPENCLAW_CONFIG ++ ".tmp") OPENCLAW_CONFIG]

/-- An operation sequence is an atomic replace of the given path when it is
exactly a write to a distinct temporary location followed by a rename of
that location onto the path. -/
def isAtomicReplaceOf (path : String) (ops : List FileOp) : Bool :=
  match ops with
  | [FileOp.write tmp _, FileOp.rename src dst] =>
    tmp == src && dst == path && tmp != path
  | _ => false

end Watchdog

open KccNotify Watchdog

/-! ### Claim theorems -/

/-- Claim C2, counterexample: update_state writes the new record directly
onto the state file; the sequence of file operations it performs is not a
write-to-temp-then-rename atomic replace. -/
theorem update_state_not_atomic_cex :
    update_state "s1" = [FileOp.write STATE_FILE "s1"] ∧
    isAtomicReplaceOf STATE_FILE (update_state "s1") = false := by
  decide

/-- Claim C2 (amended): every update of the persisted state file is a
single direct write (no rename is ever issued for it); the atomic
temp-write-then-rename pattern is used only for the channel config file
inside the switch functions. -/
theorem update_state_direct_write (s c : String) :
    update_state s = [FileOp.write STATE_FILE s] ∧
    (∀ a b, FileOp.rename a b ∉ update_state s) ∧
    isAtomicReplaceOf OPENCLAW_CONFIG (rewriteConfigOps c) = true := by
  refine ⟨rfl, ?_, rfl⟩
  intro a b hmem
  simp [update_state] at hmem

/-- Witness for update_state_direct_write at concrete contents. -/
theorem update_state_direct_write_witness :
    update_state "s1" = [FileOp.write STATE_FILE "s1"] ∧
    FileOp.rename "a" "b" ∉ update_state "s1" ∧
    isAtomicReplaceOf OPENCLAW_CONFIG (rewriteConfigOps "cfg") = true :=
  ⟨(update_state_direct_write "s1" "cfg").1,
   (update_state_direct_write "s1" "cfg").2.1 "a" "b",
   (update_state_direct_write "s1" "cfg").2.2⟩

/-- Claim C3: from webhook mode with failureCount 0, one invocation with
the reverse proxy down persists failureCount 1 without a transition, and a
second such invocation transitions to polling with failureCount 0 and the
switch timestamp recorded. -/
theorem webhook_two_failures_switch (lc ls t1 t2 : Nat) (h : Health)
    (hdown : h.nginx = false) :
    watchdogMain ⟨Mode.webhook, 0, lc, ls⟩ h t1 = ⟨Mode.webhook, 1, lc, ls⟩ ∧
    watchdogMain (watchdogMain ⟨Mode.webhook, 0, lc, ls⟩ h t1) h t2 =
      ⟨Mode.polling, 0, lc, t2⟩ := by
  simp [watchdogMain, hdown, switch_to_polling, FAILURE_THRESHOLD]

/-- Witness for webhook_two_failures_switch at a concrete snapshot. -/
theorem webhook_two_failures_switch_witness :
    watchdogMain ⟨Mode.webhook, 0, 3, 4⟩ ⟨false, true, true, true⟩ 10 =
      ⟨Mode.webhook, 1, 3, 4⟩ ∧
    watchdogMain (watchdogMain ⟨Mode.webhook, 0, 3, 4⟩ ⟨false, true, true, true⟩ 10)
        ⟨false, true, true, true⟩ 11 = ⟨Mode.polling, 0, 3, 11⟩ :=
  webhook_two_failures_switch 3 4 10 11 ⟨false, true, true, true⟩ rfl

/-- Claim C9: in polling mode with any required service down, the invocation
persists failureCount 0 and keeps the mode, and repeating the identical
adverse snapshot is idempotent on the persisted state. -/
theorem polling_down_resets_and_idempotent (s : WState) (h : Health) (t1 t2 : Nat)
    (hm : s.mode = Mode.polling)
    (hdown : h.nginx = false ∨ h.cf = false ∨ h.openclaw = false) :
    (watchdogMain s h t1).failureCount = 0 ∧
    (watchdogMain s h t1).mode = Mode.polling ∧
    watchdogMain (watchdogMain s h t1) h t2 = watchdogMain s h t1 := by
  obtain ⟨m, fc, lc, ls⟩ := s
  simp only at hm
  subst hm
  have hcond : (h.nginx && h.cf && h.openclaw) = false := by
    rcases hdown with hd | hd | hd <;> simp [hd]
  cases fc with
  | zero => simp [watchdogMain, hcond]
  | succ n => simp [watchdogMain, hcond]

/-- Witness for polling_down_resets_and_idempotent at a concrete state. -/
theorem polling_down_resets_and_idempotent_witness :
    (watchdogMain ⟨Mode.polling, 3, 1, 2⟩ ⟨true, true, false, true⟩ 10).failureCount = 0 ∧
    (watchdogMain ⟨Mode.polling, 3, 1, 2⟩ ⟨true, true, false, true⟩ 10).mode = Mode.polling ∧
    watchdogMain (watchdogMain ⟨Mode.polling, 3, 1, 2⟩ ⟨true, true, false, true⟩ 10)
        ⟨true, true, false, true⟩ 20 =
      watchdogMain ⟨Mode.polling, 3, 1, 2⟩ ⟨true, true, false, true⟩ 10 :=
  polling_down_resets_and_idempotent ⟨Mode.polling, 3, 1, 2⟩ ⟨true, true, false, true⟩
    10 20 rfl (Or.inr (Or.inr rfl))

/-- Claim C10: after any invocation, from any starting state and any health
snapshot, the persisted failureCount is strictly below the threshold 2, and
it is 0 whenever the invocation changed the mode. -/
theorem failure_count_invariant (s : WState) (h : Health) (t : Nat) :
    (watchdogMain s h t).failureCount < FAILURE_THRESHOLD ∧
    ((watchdogMain s h t).mode ≠ s.mode → (watchdogMain s h t).failureCount = 0) := by
  obtain ⟨m, fc, lc, ls⟩ := s
  cases m <;>
    simp only [watchdogMain, switch_to_polling, switch_to_webhook, FAILURE_THRESHOLD] <;>
    split_ifs <;> simp_all

/-- Witness for failure_count_invariant at an input that transitions. -/
theorem failure_count_invariant_witness :
    (watchdogMain ⟨Mode.webhook, 1, 0, 0⟩ ⟨false, false, true, true⟩ 7).failureCount <
      FAILURE_THRESHOLD ∧
    (watchdogMain ⟨Mode.webhook, 1, 0, 0⟩ ⟨false, false, true, true⟩ 7).failureCount = 0 :=
  ⟨(failure_count_invariant ⟨Mode.webhook, 1, 0, 0⟩ ⟨false, false, true, true⟩ 7).1,
   (failure_count_invariant ⟨Mode.webhook, 1, 0, 0⟩ ⟨false, false, true, true⟩ 7).2
     (by decide)⟩

/-- Claim C4, counterexample: a body whose content field is present but
equal to the empty string gets a 400 response even when delivery would
succeed, not the 200 the claim assigns to every present content. -/
theorem manual_notify_empty_content_cex :
    (⟨some "", none, none⟩ : NotifyBody).content ≠ none ∧
    (manualNotifyHandler ⟨some "", none, none⟩ true).status = 400 ∧
    manualNotifyHandler ⟨some "", none, none⟩ true ≠ ⟨200, RespBody.success true⟩ := by
  decide

/-- Claim C4 (amended): the manual-notify route responds 400 when content
is missing or the empty string; for present non-empty content it responds
200 with success true on delivery success and 502 with success false on
delivery failure. -/
theorem manual_notify_status_amended (b : NotifyBody) (ok : Bool) :
    ((b.content = none ∨ b.content = some "") →
      manualNotifyHandler b ok = ⟨400, RespBody.contentRequired⟩) ∧
    (∀ s, b.content = some s → s ≠ "" →
      manualNotifyHandler b ok = ⟨if ok then 200 else 502, RespBody.success ok⟩) := by
  constructor
  · rintro (hc | hc) <;> simp [manualNotifyHandler, jsStrTruthy, hc]
  · intro s hc hs
    simp [manualNotifyHandler, jsStrTruthy, hc, hs]

/-- Witness for manual_notify_status_amended on a missing-content body and
on a failing delivery. -/
theorem manual_notify_status_amended_witness :
    manualNotifyHandler ⟨none, none, none⟩ true = ⟨400, RespBody.contentRequired⟩ ∧
    manualNotifyHandler ⟨some "x", none, none⟩ false = ⟨502, RespBody.success false⟩ :=
  ⟨(manual_notify_status_amended ⟨none, none, none⟩ true).1 (Or.inl rfl),
   (manual_notify_status_amended ⟨some "x", none, none⟩ false).2 "x" rfl (by decide)⟩

set_option maxRecDepth 8000 in
/-- Claim C1, counterexample: for a priority-sender event with 201-character
content, the handler issues exactly two calls, but the feed call carries the
full 201-character content, so not every call's content is truncated to at
most 200 characters. -/
theorem recv_feed_not_truncated_cex :
    (onMessageReceived
      ⟨some "167090545", some (String.mk (List.replicate 201 'a')), none, none⟩).length = 2 ∧
    ¬ (∀ c ∈ onMessageReceived
        ⟨some "167090545", some (String.mk (List.replicate 201 'a')), none, none⟩,
        c.contentText.length ≤ 200) := by
  decide

/-- Claim C1 (amended): for a priority-sender event with non-empty content,
the handler issues exactly the two calls, feed then workflow; the workflow
call's content is truncated to at most 200 characters while the feed call
carries the content in full. -/
theorem recv_boss_two_calls_amended (e : RecvEvent) (sid c : String)
    (hsid : e.senderId = some sid) (hboss : BOSS_SENDER_IDS.contains sid = true)
    (hc : e.content = some c) (hne : c ≠ "") :
    onMessageReceived e =
      [⟨Endpoint.messages, Payload.feed c "Boss" "received"⟩,
       ⟨Endpoint.workflow,
        Payload.flow "start_flow" (sliceTo 200 c) (jsOrDefault e.senderName "Unknown")
          "wickedman" (numIfTruthy e.messageId)⟩] ∧
    (sliceTo 200 c).length ≤ 200 := by
  have hmem : sid ∈ BOSS_SENDER_IDS := by
    simpa using hboss
  constructor
  · simp [onMessageReceived, hsid, hc, hmem, hne]
  · have hlen : (sliceTo 200 c).length = (c.data.take 200).length := rfl
    rw [List.length_take] at hlen
    omega

/-- Witness for recv_boss_two_calls_amended at the spec's example event. -/
theorem recv_boss_two_calls_amended_witness :
    onMessageReceived ⟨some "167090545", some "hello", none, none⟩ =
      [⟨Endpoint.messages, Payload.feed "hello" "Boss" "received"⟩,
       ⟨Endpoint.workflow,
        Payload.flow "start_flow" (sliceTo 200 "hello") (jsOrDefault none "Unknown")
          "wickedman" (numIfTruthy none)⟩] ∧
    (sliceTo 200 "hello").length ≤ 200 :=
  recv_boss_two_calls_amended ⟨some "167090545", some "hello", none, none⟩
    "167090545" "hello" rfl (by decide) rfl (by decide)

/-- Claim C5: whenever the resolved content of a message_sent event
satisfies isHarmlessExecMessage, the handler issues no outbound call,
whatever the recipient. -/
theorem sent_harmless_suppressed (e : SentEvent)
    (h : isHarmlessExecMessage (jsOrStr e.content e.body) = true) :
    onMessageSent e = [] := by
  unfold onMessageSent
  split_ifs <;> simp_all

/-- Witness for sent_harmless_suppressed: the exec-report message of the
spec, sent to the priority recipient, is suppressed. -/
theorem sent_harmless_suppressed_witness :
    isHarmlessExecMessage
      (jsOrStr (some "Command exited with code 1 (grep)") none) = true ∧
    onMessageSent
      ⟨some "Command exited with code 1 (grep)", none, some "167090545", none⟩ = [] :=
  ⟨by decide,
   sent_harmless_suppressed
     ⟨some "Command exited with code 1 (grep)", none, some "167090545", none⟩
     (by decide)⟩

/-- Claim C6: after_tool_call is a no-op for tools other than exec; the
derived exit code is the result's numeric field when present, else 1 on an
error status and 0 otherwise; and a zero exit code with a non-error status
issues no outbound call. -/
theorem after_tool_call_gating (e : ToolEvent) (r : ToolResult) (n : Int) :
    (jsOrStr e.toolName e.name ≠ "exec" → onAfterToolCall e = []) ∧
    (r.exitCode = some n → deriveExitCode r = n) ∧
    (r.exitCode = none →
      deriveExitCode r = (if resultStatus r == "error" then 1 else 0)) ∧
    (deriveExitCode (resolveResult e) = 0 →
      resultStatus (resolveResult e) ≠ "error" → onAfterToolCall e = []) := by
  refine ⟨?_, ?_, ?_, ?_⟩
  · intro h
    simp [onAfterToolCall, h]
  · intro h
    simp [deriveExitCode, h]
  · intro h
    simp [deriveExitCode, h]
  · intro h1 h2
    unfold onAfterToolCall
    split_ifs with g1 g2 <;> simp_all

/-- Witness for after_tool_call_gating: a non-exec tool, a numeric exit
code, a missing exit code on error status, and a clean exec run. -/
theorem after_tool_call_gating_witness :
    onAfterToolCall ⟨some "browse", none, none, none, none, none⟩ = [] ∧
    deriveExitCode ⟨some "error", some 7, none, none⟩ = 7 ∧
    deriveExitCode ⟨some "error", none, none, none⟩ =
      (if resultStatus ⟨some "error", none, none, none⟩ == "error" then 1 else 0) ∧
    onAfterToolCall
      ⟨some "exec", none, some ⟨some "ok", some 0, none, none⟩, none, some "ls", none⟩ = [] :=
  ⟨(after_tool_call_gating ⟨some "browse", none, none, none, none, none⟩
      emptyToolResult 0).1 (by decide),
   (after_tool_call_gating ⟨some "browse", none, none, none, none, none⟩
      ⟨some "error", some 7, none, none⟩ 7).2.1 rfl,
   (after_tool_call_gating ⟨some "browse", none, none, none, none, none⟩
      ⟨some "error", none, none, none⟩ 0).2.2.1 rfl,
   (after_tool_call_gating
      ⟨some "exec", none, some ⟨some "ok", some 0, none, none⟩, none, some "ls", none⟩
      emptyToolResult 0).2.2.2 (by decide) (by decide)⟩

/-- Claim C7: for every exit code greater than 1, isHarmlessExecFailure
reduces to the redirect-marker rule or the stderr-pattern rule; the
benign-command allow-list never suppresses such an exit code. -/
theorem exec_failure_exit_gt1 (command stderr : String) (exitCode : Int)
    (hgt : 1 < exitCode) :
    isHarmlessExecFailure command exitCode stderr =
      (containsLit "2>/dev/null".data command.data ||
       (stderr != "" && stderrBenign stderr)) := by
  have hne : (exitCode == 1) = false := by
    simp only [beq_eq_false_iff_ne, ne_eq]
    omega
  unfold isHarmlessExecFailure
  split_ifs with g1 g2 g3 <;> simp_all

/-- Witness for exec_failure_exit_gt1 at exit code 5. -/
theorem exec_failure_exit_gt1_witness :
    isHarmlessExecFailure "grep foo bar" 5 "" =
      (containsLit "2>/dev/null".data "grep foo bar".data ||
       ("" != "" && stderrBenign "")) :=
  exec_failure_exit_gt1 "grep foo bar" "" 5 (by decide)

/-- Claim C8: whenever a content string matches the exec-error-message
patterns and the exit code it reports exceeds 1, isHarmlessExecMessage is
false; in particular it is false on "Command exited with code 2" and true on
"grep exited with code 1". -/
theorem exec_message_code_gt1 (content : String)
    (h1 : isExecErrorMsg content = true) (h2 : 1 < extractExitCode content) :
    isHarmlessExecMessage content = false ∧
    isHarmlessExecMessage "Command exited with code 2" = false ∧
    isHarmlessExecMessage "grep exited with code 1" = true := by
  refine ⟨?_, by decide, by decide⟩
  unfold isHarmlessExecMessage
  simp [h1, h2]

/-- Witness for exec_message_code_gt1 at the spec's example message. -/
theorem exec_message_code_gt1_witness :
    isHarmlessExecMessage "Command exited with code 2" = false ∧
    isHarmlessExecMessage "Command exited with code 2" = false ∧
    isHarmlessExecMessage "grep exited with code 1" = true :=
  exec_message_code_gt1 "Command exited with code 2" (by decide) (by decide)
